import Mathlib

/-!
Verification of the simulation core of the single-player arena
survival/collection game (`src/game.js`, IIFE body).

The JavaScript source is shallowly embedded over `ℚ`: JavaScript numbers
used by the simulation core are decimal fractions and the arithmetic the
claims touch (addition, multiplication, division, comparisons) is exact on
them, so `ℚ` reproduces it faithfully.  `Math.hypot` is the only
irrational operation; it is handled in two ways:

* Comparisons of the form `Math.hypot(a, b) < c` (with `c ≥ 0`, which
  holds at every call site: radii sums and scaled epsilons) are embedded
  as `a*a + b*b < c*c` — equivalent because `x ↦ x*x` is strictly
  monotone on nonnegatives; likewise `dist < minDist` between two
  distances compares squares.
* Where the code uses the *value* of the hypotenuse (normalising a
  direction vector), the embedding takes the length as an explicit
  argument constrained by `IsHypot` (the unique nonnegative square root),
  or a function argument `hyp : ℚ → ℚ → ℚ` constrained by `IsHypot` at the
  argument pairs the run actually evaluates.

DOM/rendering statements of the source are omitted: they do not touch the
simulation state the claims quantify over.
-/

namespace Game

/-! ## World constants (`game.js` lines 44-139) -/

def WORLD_WIDTH : ℚ := 200
def WORLD_HEIGHT : ℚ := 200
def DEFAULT_BULLET_SPEED : ℚ := 48 / 60
def DEFAULT_BULLET_LIFE : ℚ := 180
def BASE_BULLET_DAMAGE : ℚ := 20
def BOT_STALL_FRAMES : ℕ := 60 * 10
def BOT_POINTS_TIMEOUT_FRAMES : ℕ := 60 * 25
def PROGRESS_BAR_FRAMES : ℕ := 60 * 90
def HEALTH_BOOST_AMOUNT : ℚ := 15
def HEALTH_BOOST_RESPAWN_FRAMES : ℕ := 60 * 5

/-- Predicate singling out `Math.hypot a b = l`: the unique nonnegative
square root of `a*a + b*b`. -/
def IsHypot (a b l : ℚ) : Prop := 0 ≤ l ∧ l * l = a * a + b * b

instance (a b l : ℚ) : Decidable (IsHypot a b l) := by
  unfold IsHypot; infer_instance

/-! ## Obstacle field and Collision Engine (`game.js` lines 500-563) -/

/-- Obstacle variants generated by `generateObstacles`. -/
inductive Obstacle where
  | rect (x y width height : ℚ)
  | circle (cx cy radius : ℚ)
  | ellipse (cx cy rx ry : ℚ)
deriving DecidableEq

/-- Collision test of the circle at `(cx, cy)` of radius `radius` against a
single obstacle; one arm of the `for` loop body of `collidesWithObstacles`
(lines 536-561).  `Math.max(p, 0, q)` is `max p (max 0 q)`; the strict `<`
comparisons of squared quantities are the source's own. -/
def obstacleHit (cx cy radius : ℚ) : Obstacle → Bool
  | .rect x y width height =>
      let dx := max (x - cx) (max 0 (cx - (x + width)))
      let dy := max (y - cy) (max 0 (cy - (y + height)))
      decide (dx * dx + dy * dy < radius * radius)
  | .circle ocx ocy oradius =>
      let dx := ocx - cx
      let dy := ocy - cy
      let radSum := oradius + radius
      decide (dx * dx + dy * dy < radSum * radSum)
  | .ellipse ocx ocy rx ry =>
      let dx := cx - ocx
      let dy := cy - ocy
      let rxSum := rx + radius
      let rySum := ry + radius
      decide ((dx * dx) / (rxSum * rxSum) + (dy * dy) / (rySum * rySum) < 1)

/-- The Collision Engine's intersects predicate `collidesWithObstacles`
(lines 535-563): true iff the circle hits some obstacle of the field. -/
def collidesWithObstacles (obstacles : List Obstacle) (cx cy radius : ℚ) : Bool :=
  obstacles.any (obstacleHit cx cy radius)

/-- Boundary clamp `Math.max(radius, Math.min(dim - radius, v))` used at the
end of every movement routine (e.g. lines 351-352, 722-723, 1005-1006). -/
def clampWorld (radius dim v : ℚ) : ℚ := max radius (min (dim - radius) v)

/-! ## Actor Movement Integrator -/

/-- Axis-separated move of `Player.update` (lines 341-349): the X move is
tested at the old position, the Y move is tested at the *possibly updated*
X.  No perpendicular fallback exists for the player. -/
def playerMoveAxes (obstacles : List Obstacle) (x y radius dx dy : ℚ) : ℚ × ℚ :=
  let testX := x + dx
  let x1 := if collidesWithObstacles obstacles testX y radius then x else testX
  let testY := y + dy
  let y1 := if collidesWithObstacles obstacles x1 testY radius then y else testY
  (x1, y1)

/-- Current player speed `baseSpeed * speedMultiplier * boostFactor`
(lines 336-337). -/
def playerSpeedNow (baseSpeed speedMultiplier : ℚ) (speedBoostFrames : ℕ) : ℚ :=
  baseSpeed * speedMultiplier * (if 0 < speedBoostFrames then 2 else 1)

/-- Shared body of `Bot.moveInDirection` (lines 728-776) and the textually
identical `TargetBot.moveInDirection` (lines 958-1007): normalise the
direction by `len` (`Math.hypot(dirX, dirY)`, passed explicitly), test both
axis moves against the *pre-move* position, apply the unblocked ones, try
perpendicular offsets in both signs when both are blocked, then clamp to
world bounds.  `Math.hypot(dirX,dirY) < 0.001` is embedded as
`len < 1/1000` on the explicit length. -/
def moveInDirection (obstacles : List Obstacle)
    (x y radius speed dirX dirY len : ℚ) : ℚ × ℚ :=
  if len < 1 / 1000 then (x, y)
  else
    let nx := dirX / len
    let ny := dirY / len
    let vx := nx * speed
    let vy := ny * speed
    let testX := x + vx
    let blockedX := collidesWithObstacles obstacles testX y radius
    let testY := y + vy
    let blockedY := collidesWithObstacles obstacles x testY radius
    let x1 := if blockedX then x else testX
    let y1 := if blockedY then y else testY
    let resolved :=
      if blockedX && blockedY then
        let perpX := -ny
        let perpY := nx
        let altX := x1 + perpX * speed
        let altY := y1 + perpY * speed
        let tx := if collidesWithObstacles obstacles altX y1 radius
          then (x1, false) else (altX, true)
        let ty := if collidesWithObstacles obstacles tx.1 altY radius
          then (y1, false) else (altY, true)
        if tx.2 || ty.2 then (tx.1, ty.1)
        else
          let altX2 := tx.1 - perpX * speed
          let altY2 := ty.1 - perpY * speed
          let xb := if collidesWithObstacles obstacles altX2 ty.1 radius
            then tx.1 else altX2
          let yb := if collidesWithObstacles obstacles xb altY2 radius
            then ty.1 else altY2
          (xb, yb)
      else (x1, y1)
    (clampWorld radius WORLD_WIDTH resolved.1,
     clampWorld radius WORLD_HEIGHT resolved.2)

/-- `Bot.moveTowardsTarget` (lines 668-724): no-op without a target; with a
target its body coincides with `moveInDirection` applied to the offset
vector towards the target (the source duplicates the same statements).
`len` stands for `Math.hypot(target.x - x, target.y - y)`. -/
def botMoveTowards (obstacles : List Obstacle)
    (x y radius speed : ℚ) (target : Option (ℚ × ℚ)) (len : ℚ) : ℚ × ℚ :=
  match target with
  | none => (x, y)
  | some t => moveInDirection obstacles x y radius speed (t.1 - x) (t.2 - y) len

/-! ## Player (`game.js` lines 248-357) -/

/-- Player state (constructor lines 249-319).  The rendering-only fields
`name` and `color`, and the upgrade bookkeeping not touched by any claim
(`upgrades.*` counters other than bullet damage, the other
`upgradeIncrement` entries) are omitted; every field below carries the
source's name. -/
structure Player where
  x : ℚ
  y : ℚ
  radius : ℚ
  baseSpeed : ℚ
  speedMultiplier : ℚ
  speed : ℚ
  dirX : ℚ
  dirY : ℚ
  score : ℕ
  ammo : ℕ
  facingX : ℚ
  facingY : ℚ
  maxHealth : ℚ
  health : ℚ
  bulletSpeedMultiplier : ℚ
  bulletRangeMultiplier : ℚ
  bulletDamageMultiplier : ℚ
  level : ℕ
  upgradePointsEarned : ℕ
  upgradePointsSpent : ℕ
  speedBoostFrames : ℕ
  upgradeIncrementBulletDamage : ℚ
  upgradesBulletDamage : ℕ
deriving DecidableEq

/-- Displacement the player attempts along X this tick:
`(dirX / len) * speed` with the recomputed speed (lines 336-339). -/
def playerStepX (p : Player) (len : ℚ) : ℚ :=
  p.dirX / len * playerSpeedNow p.baseSpeed p.speedMultiplier p.speedBoostFrames

/-- Displacement the player attempts along Y this tick (line 339). -/
def playerStepY (p : Player) (len : ℚ) : ℚ :=
  p.dirY / len * playerSpeedNow p.baseSpeed p.speedMultiplier p.speedBoostFrames

/-- `Player.update` (lines 324-356).  `len` stands for
`Math.hypot(dirX, dirY)`.  When `len > 0` the speed is recomputed, the two
axis moves run (Y tested at the updated X), and both coordinates are
clamped to the world; otherwise the position is untouched.  Finally the
speed-boost timer is decremented when positive. -/
def playerUpdate (obstacles : List Obstacle) (p : Player) (len : ℚ) : Player :=
  let p1 :=
    if 0 < len then
      let speed := playerSpeedNow p.baseSpeed p.speedMultiplier p.speedBoostFrames
      let moved := playerMoveAxes obstacles p.x p.y p.radius
        (playerStepX p len) (playerStepY p len)
      { p with
        speed := speed,
        x := clampWorld p.radius WORLD_WIDTH moved.1,
        y := clampWorld p.radius WORLD_HEIGHT moved.2 }
    else p
  if 0 < p1.speedBoostFrames then
    { p1 with speedBoostFrames := p1.speedBoostFrames - 1 }
  else p1

/-! ## Progression Controller: level thresholds (`game.js` lines 212-214,
1462-1465, 861-864) -/

/-- Score needed for the next level: `20 + currentLevel * 22` (line 213). -/
def nextLevelThreshold (currentLevel : ℕ) : ℕ := 20 + currentLevel * 22

/-- The `while (player.score >= nextLevelThreshold(player.level))` loop of
the collection handlers (lines 1462-1465, duplicated at 861-864): each
pass grants one level and one upgrade point.  Scores in the simulation are
sums of integer fruit values, hence `ℕ`. -/
def levelLoop (score level upgradePointsEarned : ℕ) : ℕ × ℕ :=
  if nextLevelThreshold level ≤ score then
    levelLoop score (level + 1) (upgradePointsEarned + 1)
  else (level, upgradePointsEarned)
termination_by score + 1 - 22 * level
decreasing_by simp_wf; simp [nextLevelThreshold] at *; omega

/-- Effect of the player collecting a fruit worth `points` on the
score/level/upgrade-point fields (lines 1456-1465). -/
def collectFruitScore (p : Player) (points : ℕ) : Player :=
  let score := p.score + points
  let lp := levelLoop score p.level p.upgradePointsEarned
  { p with score := score, level := lp.1, upgradePointsEarned := lp.2 }

/-! ## Combat Subsystem (`game.js` lines 570-596, 1138-1154, 1417-1446) -/

/-- Projectile state (`Bullet` constructor, lines 570-590). -/
structure Bullet where
  x : ℚ
  y : ℚ
  dx : ℚ
  dy : ℚ
  radius : ℚ
  life : ℚ
  damage : ℚ
deriving DecidableEq

/-- The `Bullet` constructor (lines 571-590).  `len` stands for
`Math.hypot(dirX, dirY)`; `playerRadius` is the global `player.radius`
read for the muzzle offset.  The damage is fixed here as
`BASE_BULLET_DAMAGE * damageMult` (line 589). -/
def mkBullet (px py dirX dirY len speedMult rangeMult damageMult playerRadius : ℚ) :
    Bullet :=
  let nx := dirX / len
  let ny := dirY / len
  let startOffset := playerRadius + 1 / 5
  { x := px + nx * startOffset
    y := py + ny * startOffset
    dx := nx * (DEFAULT_BULLET_SPEED * speedMult)
    dy := ny * (DEFAULT_BULLET_SPEED * speedMult)
    radius := 3 / 5
    life := DEFAULT_BULLET_LIFE * rangeMult
    damage := BASE_BULLET_DAMAGE * damageMult }

/-- The `shoot` function (lines 1138-1154).  `hyp` supplies
`Math.hypot`; the guards are, in source order: game not running (or no
player), `ammo <= 0` (ammo is a count, so `= 0`), degenerate facing
vector.  On success one bullet seeded with the player's current
multipliers is appended (`bullets.push`) and one ammo is consumed. -/
def shoot (hyp : ℚ → ℚ → ℚ) (gameRunning : Bool) (p : Player)
    (bullets : List Bullet) : List Bullet × Player :=
  if !gameRunning then (bullets, p)
  else if p.ammo = 0 then (bullets, p)
  else
    let dirLen := hyp p.facingX p.facingY
    if dirLen < 1 / 1000 then (bullets, p)
    else
      (bullets ++ [mkBullet p.x p.y p.facingX p.facingY dirLen
          p.bulletSpeedMultiplier p.bulletRangeMultiplier
          p.bulletDamageMultiplier p.radius],
       { p with ammo := p.ammo - 1 })

/-- Enemy health after a bullet hit (update loop lines 1428-1429):
`enemy.health -= b.damage; if (enemy.health < 0) enemy.health = 0`. -/
def bulletHitHealth (b : Bullet) (enemyHealth : ℚ) : ℚ :=
  let h := enemyHealth - b.damage
  if h < 0 then 0 else h

/-- The `bulletDamage` arm of `applyUpgrade` (lines 1228-1279, case at
1266-1272): spend one point to raise the multiplier by the current
increment, which then decays by the factor 0.75. -/
def applyUpgradeBulletDamage (p : Player) : Player :=
  if p.upgradePointsEarned - p.upgradePointsSpent = 0 then p
  else
    { p with
      bulletDamageMultiplier :=
        p.bulletDamageMultiplier + p.upgradeIncrementBulletDamage
      upgradesBulletDamage := p.upgradesBulletDamage + 1
      upgradeIncrementBulletDamage := p.upgradeIncrementBulletDamage * (3 / 4)
      upgradePointsSpent := p.upgradePointsSpent + 1 }

/-! ## Progression Controller: rounds (`game.js` lines 177-206, 1587-1593) -/

/-- Health fields of a chasing enemy (`TargetBot`).  The enemy's
position, speed and cooldown fields are not read or written by
`startNewRound` (beyond the constructor's random placement, which does not
touch health) and are omitted from this round-level view. -/
structure RoundEnemy where
  maxHealth : ℚ
  health : ℚ
deriving DecidableEq

/-- The round-relevant global state: `roundLevel`, `progressFrame`,
`progressBotSpawned`, `targetBots`, `currentItemSpawnInterval`, and the
(nullable) player's `maxHealth` read at line 193. -/
structure RoundState where
  roundLevel : ℕ
  progressFrame : ℕ
  progressBotSpawned : Bool
  targetBots : List RoundEnemy
  currentItemSpawnInterval : ℚ
  playerMaxHealth : Option ℚ
deriving DecidableEq

/-- `startNewRound` (lines 177-206): increment the round, reset the
progress bar, add 20 to every existing enemy's max and current health,
append one enemy whose max health is `player.maxHealth + 20*(roundLevel-1)`
with the *incremented* `roundLevel` (or 100 without a player), multiply the
item spawn interval by 0.9, and clear `progressBotSpawned`. -/
def startNewRound (s : RoundState) : RoundState :=
  let newRound := s.roundLevel + 1
  let newMax : ℚ :=
    match s.playerMaxHealth with
    | some m => m + 20 * ((newRound : ℚ) - 1)
    | none => 100
  { roundLevel := newRound
    progressFrame := 0
    progressBotSpawned := false
    targetBots :=
      (s.targetBots.map fun e =>
        { maxHealth := e.maxHealth + 20, health := e.health + 20 })
      ++ [{ maxHealth := newMax, health := newMax }]
    currentItemSpawnInterval := s.currentItemSpawnInterval * (9 / 10)
    playerMaxHealth := s.playerMaxHealth }

/-- The progress-bar step of the game loop (lines 1587-1593): while
`progressFrame < PROGRESS_BAR_FRAMES` only the counter advances; once it
has reached the bound, `startNewRound` runs. -/
def progressTick (s : RoundState) : RoundState :=
  if s.progressFrame < PROGRESS_BAR_FRAMES then
    { s with progressFrame := s.progressFrame + 1 }
  else startNewRound s

/-! ## Health boost (`game.js` lines 129-132, 482-495, 1501-1514) -/

/-- A live singleton health-boost pickup (object literal of line 490). -/
structure HBoost where
  x : ℚ
  y : ℚ
  radius : ℚ
  spawnFrame : ℕ
deriving DecidableEq

/-- The health-boost section of the game loop (lines 1501-1514): spawn
only when the slot is empty and the respawn frame has been reached
(`spawnResult` stands for the outcome of the randomized
`spawnHealthBoost`, `none` when placement failed); then, if a boost is
live and overlaps the player, heal by `HEALTH_BOOST_AMOUNT` capped at
`maxHealth`, record the respawn frame, and empty the slot.  The overlap
test `Math.hypot(px-hx, py-hy) < player.radius + boost.radius` is
embedded squared. -/
def healthBoostTick (frameCount : ℕ) (healthBoost : Option HBoost)
    (nextHealthBoostFrame : ℕ) (spawnResult : Option HBoost) (p : Player) :
    Option HBoost × ℕ × Player :=
  let hb :=
    if healthBoost.isNone && decide (nextHealthBoostFrame ≤ frameCount) then
      spawnResult
    else healthBoost
  match hb with
  | none => (none, nextHealthBoostFrame, p)
  | some boost =>
      if (p.x - boost.x) * (p.x - boost.x) + (p.y - boost.y) * (p.y - boost.y)
          < (p.radius + boost.radius) * (p.radius + boost.radius) then
        (none, frameCount + HEALTH_BOOST_RESPAWN_FRAMES,
         { p with health := min p.maxHealth (p.health + HEALTH_BOOST_AMOUNT) })
      else (some boost, nextHealthBoostFrame, p)

/-! ## Entity Registry: items and collector bots (`game.js` lines 361-415,
604-910) -/

/-- Item kinds (`type` field): `fruit` grants score, `ammo` grants
ammunition. -/
inductive ItemKind where
  | fruit
  | ammo
deriving DecidableEq

/-- A spawned pickup.  JavaScript stores items as heap objects compared by
reference (`other.target === it`, `items.includes`, `items.indexOf`); the
embedding gives each live item a handle `ref : ℕ` unique in the registry
and compares handles.  `points` is the fruit score value (lines 366-368),
`amount` the ammo value (line 398); the field not applying to the kind is
0. -/
structure Item where
  ref : ℕ
  kind : ItemKind
  points : ℕ
  amount : ℕ
  radius : ℚ
  x : ℚ
  y : ℚ
deriving DecidableEq

/-- Collector-bot roles (`Bot` constructor argument `type`): `point` bots
chase fruit, `ammo` bots chase ammo pickups. -/
inductive BotKind where
  | point
  | ammo
deriving DecidableEq

/-- Collector-bot state (constructor lines 605-639).  `target` holds the
handle of the reserved item (`null` ↦ `none`); `color` is
rendering-only and omitted. -/
structure Bot where
  kind : BotKind
  x : ℚ
  y : ℚ
  radius : ℚ
  speed : ℚ
  target : Option ℕ
  rerouteRank : ℕ
  stalledFrames : ℕ
  pointsCollected : ℕ
  framesSinceLastCollection : ℕ
deriving DecidableEq

/-- Role filter of the target searches (lines 645-646 and 890-891):
`(this.type === 'point' && it.type === 'fruit') || (this.type === 'ammo'
&& it.type === 'ammo')`. -/
def roleMatches (bk : BotKind) (ik : ItemKind) : Bool :=
  match bk, ik with
  | .point, .fruit => true
  | .ammo, .ammo => true
  | _, _ => false

/-- Reservation scan of `findTarget`/`findFarthestTarget` (lines 649-655,
892-899): item `r` is reserved when some *other* live bot (index `j ≠ i`
in the `bots` array, matching the `other !== this` identity test) already
holds it as `target`. -/
def reservedScan (i r : ℕ) : ℕ → List Bot → Bool
  | _, [] => false
  | j, b :: rest =>
      (decide (j ≠ i) && b.target == some r) || reservedScan i r (j + 1) rest

/-- Whether some bot other than the one at index `i` targets item `r`. -/
def reservedByOther (bots : List Bot) (i r : ℕ) : Bool :=
  reservedScan i r 0 bots

/-- Squared distance between a bot and an item; the source compares
`Math.hypot` distances (lines 657, 901), which order identically. -/
def botItemDistSq (b : Bot) (it : Item) : ℚ :=
  (b.x - it.x) * (b.x - it.x) + (b.y - it.y) * (b.y - it.y)

/-- The scan of `Bot.findTarget` (lines 641-665): walk `items`, skip
wrong-role and reserved entries, and keep the strictly closest item seen
so far (`dist < minDist` with `minDist` starting at `Infinity`, i.e. an
empty accumulator). -/
def findTargetScan (b : Bot) (bots : List Bot) (i : ℕ) :
    List Item → Option (ℕ × ℚ) → Option ℕ
  | [], best => best.map (·.1)
  | it :: rest, best =>
      if roleMatches b.kind it.kind && !reservedByOther bots i it.ref then
        let dist := botItemDistSq b it
        match best with
        | none => findTargetScan b bots i rest (some (it.ref, dist))
        | some (r, m) =>
            if dist < m then findTargetScan b bots i rest (some (it.ref, dist))
            else findTargetScan b bots i rest (some (r, m))
      else findTargetScan b bots i rest best

/-- `Bot.findTarget` (lines 641-665) as the handle it stores into
`this.target`. -/
def findTarget (b : Bot) (bots : List Bot) (i : ℕ) (items : List Item) :
    Option ℕ :=
  findTargetScan b bots i items none

/-- Insertion of a candidate into a list sorted by strictly descending
distance; models the in-place `candidates.sort((a, b) => b.dist - a.dist)`
of line 906 (the claims proved below depend only on the membership of the
sorted list, not on tie order). -/
def insertDesc (c : ℕ × ℚ) : List (ℕ × ℚ) → List (ℕ × ℚ)
  | [] => [c]
  | d :: rest => if d.2 ≤ c.2 then c :: d :: rest else d :: insertDesc c rest

/-- Sort by descending distance (line 906). -/
def sortDesc : List (ℕ × ℚ) → List (ℕ × ℚ)
  | [] => []
  | c :: rest => insertDesc c (sortDesc rest)

/-- Candidate list of `Bot.findFarthestTarget` (lines 887-904): eligible,
unreserved items paired with their distance. -/
def farCandidates (b : Bot) (bots : List Bot) (i : ℕ) (items : List Item) :
    List (ℕ × ℚ) :=
  items.filterMap fun it =>
    if roleMatches b.kind it.kind && !reservedByOther bots i it.ref then
      some (it.ref, botItemDistSq b it)
    else none

/-- `Bot.findFarthestTarget(rank)` (lines 887-909): with no candidates
return `null`; otherwise sort by descending distance and take index
`min(rank - 1, length - 1)`. -/
def findFarthestTarget (b : Bot) (bots : List Bot) (i : ℕ) (items : List Item)
    (rank : ℕ) : Option ℕ :=
  let candidates := farCandidates b bots i items
  if candidates.isEmpty then none
  else
    ((sortDesc candidates).get? (min (rank - 1) (candidates.length - 1))).map (·.1)

/-- The respawn `do { x,y = random… } while (collides && attempts < n)`
loops (lines 839-843 and, with the same shape, 923-927): draw candidate
positions from the oracle `draws` (modelling `Math.random`), stopping at
the first non-colliding one or after `maxAttempts` draws; the last draw
sticks even when colliding.  An exhausted oracle keeps the current
position (the loop always draws, so callers pass enough entries). -/
def respawnScan (obstacles : List Obstacle) (radius : ℚ) (maxAttempts : ℕ)
    (x y : ℚ) : ℕ → List (ℚ × ℚ) → ℚ × ℚ
  | _, [] => (x, y)
  | attempts, d :: rest =>
      if collidesWithObstacles obstacles d.1 d.2 radius
          && decide (attempts + 1 < maxAttempts) then
        respawnScan obstacles radius maxAttempts x y (attempts + 1) rest
      else d

/-- The idle-timeout nudge loop of `Bot.update` (lines 796-801): starting
from the player's position, while the bot collides with an obstacle and
fewer than 20 attempts were made, place it at the player's position plus a
random offset in (-1, 1) on each axis (`(Math.random() - 0.5) * 2`,
supplied by the oracle `draws`). -/
def nudgeScan (obstacles : List Obstacle) (radius px py : ℚ) :
    ℕ → List (ℚ × ℚ) → ℚ × ℚ → ℚ × ℚ
  | attempts, draws, pos =>
      if collidesWithObstacles obstacles pos.1 pos.2 radius
          && decide (attempts < 20) then
        match draws with
        | [] => pos
        | d :: rest =>
            nudgeScan obstacles radius px py (attempts + 1) rest
              (px + d.1, py + d.2)
      else pos

/-- `Bot.update` (lines 777-882), the per-tick step of one collector bot.

Arguments: `hyp` models `Math.hypot`; `bots`/`i` give the reservation
context (the global `bots` array and this bot's position in it); `player`
and `items` are the touched globals; `stallDraws`/`nudgeDraws` are oracles
for the two random-relocation loops.  The result is `none` exactly when
the step throws: after the stall-threshold respawn clears `this.target`
(line 846), line 849 evaluates `this.target.x` — a `TypeError` on `null`
that aborts the update (and the whole game loop).  The two `find?`
fallbacks returning the unchanged state are unreachable: a stored handle
is looked up only when the registry contains it (the JavaScript stores the
object itself and needs no lookup). -/
def botUpdate (hyp : ℚ → ℚ → ℚ) (obstacles : List Obstacle) (bots : List Bot)
    (i : ℕ) (player : Player) (items : List Item) (b : Bot)
    (stallDraws nudgeDraws : List (ℚ × ℚ)) : Option (Bot × Player × List Item) :=
  let targetLive :=
    match b.target with
    | none => false
    | some r => items.any fun it => it.ref == r
  let b1 := if !targetLive then { b with target := findTarget b bots i items } else b
  let b2 :=
    { b1 with framesSinceLastCollection := b1.framesSinceLastCollection + 1 }
  let b3 :=
    if BOT_POINTS_TIMEOUT_FRAMES ≤ b2.framesSinceLastCollection then
      let pos := nudgeScan obstacles b2.radius player.x player.y 0 nudgeDraws
        (player.x, player.y)
      { b2 with
        x := pos.1
        y := pos.2
        framesSinceLastCollection := 0
        stalledFrames := 0
        rerouteRank := 2
        target := none }
    else b2
  match b3.target with
  | none => some (b3, player, items)
  | some r =>
    match items.find? (fun it => it.ref == r) with
    | none => some (b3, player, items)
    | some tgt =>
      let len := hyp (tgt.x - b3.x) (tgt.y - b3.y)
      let moved := botMoveTowards obstacles b3.x b3.y b3.radius b3.speed
        (some (tgt.x, tgt.y)) len
      let b4 := { b3 with x := moved.1, y := moved.2 }
      let delta := hyp (b4.x - b3.x) (b4.y - b3.y)
      let b5 :=
        if delta < b4.speed * (1 / 100) then
          let bs := { b4 with stalledFrames := b4.stalledFrames + 1 }
          let newTarget := findFarthestTarget bs bots i items bs.rerouteRank
          let bt :=
            match newTarget with
            | some nr =>
                if bs.target ≠ some nr then { bs with target := some nr } else bs
            | none => bs
          { bt with rerouteRank := bt.rerouteRank + 1 }
        else { b4 with stalledFrames := 0, rerouteRank := 2 }
      let b6 :=
        if BOT_STALL_FRAMES ≤ b5.stalledFrames then
          let pos := respawnScan obstacles b5.radius 50 b5.x b5.y 0 stallDraws
          { b5 with
            x := pos.1
            y := pos.2
            stalledFrames := 0
            rerouteRank := 2
            target := none }
        else b5
      match b6.target with
      | none => none
      | some r2 =>
        match items.find? (fun it => it.ref == r2) with
        | none => some (b6, player, items)
        | some tgt2 =>
          let dist := hyp (b6.x - tgt2.x) (b6.y - tgt2.y)
          if dist < b6.radius + tgt2.radius then
            let items2 := items.eraseP fun it => it.ref == r2
            match tgt2.kind with
            | .fruit =>
                some
                  ({ b6 with
                      pointsCollected := b6.pointsCollected + tgt2.points
                      framesSinceLastCollection := 0
                      target := none
                      rerouteRank := 2
                      stalledFrames := 0 },
                   collectFruitScore player tgt2.points, items2)
            | .ammo =>
                some
                  ({ b6 with
                      framesSinceLastCollection := 0
                      target := none
                      rerouteRank := 2
                      stalledFrames := 0 },
                   { player with ammo := player.ammo + tgt2.amount }, items2)
          else some (b6, player, items)

/-! ## Reservation invariant model (claim about `findTarget` /
`findFarthestTarget`)

`Bot.update` assigns `this.target` in exactly four ways: clearing it
(idle-timeout branch lines 806, stall-respawn line 846, collection line
877), keeping it, storing the result of `findTarget` (line 664, called
from line 780), or storing a non-null result of `findFarthestTarget`
(lines 821-824).  The constructor (line 617) and `buyBot` (lines
1107-1127) only introduce bots with `target = null`.  Other bots' targets
never change while one bot updates (the game loop runs bot updates
sequentially, lines 1517-1519), and the querying bot's own coordinates and
rank may have changed mid-update, so the query bot `q` is existentially
free while the reservation context `bots` is the pre-step array.  The step
relation below over-approximates every such mutation, so an invariant
closed under it holds in all reachable registry states. -/

/-- One admissible final value of `target` for the bot at index `i` after
its `update` runs against registry `bots` and item list `items`. -/
inductive TargetWrite (bots : List Bot) (i : ℕ) : Option ℕ → Prop
  | clear : TargetWrite bots i none
  | keep (b : Bot) (hb : bots.get? i = some b) : TargetWrite bots i b.target
  | acquire (q : Bot) (items : List Item) :
      TargetWrite bots i (findTarget q bots i items)
  | reroute (q : Bot) (items : List Item) (rank : ℕ) :
      TargetWrite bots i (findFarthestTarget q bots i items rank)

/-- A registry transition: one bot finishes its update with an admissible
target (its other fields arbitrary), or a fresh bot with no target is
appended (`buyBot`). -/
inductive RegistryStep : List Bot → List Bot → Prop
  | update (bots : List Bot) (i : ℕ) (b2 : Bot) (v : Option ℕ)
      (hv : TargetWrite bots i v) (hb2 : b2.target = v) :
      RegistryStep bots (bots.set i b2)
  | spawn (bots : List Bot) (b : Bot) (hb : b.target = none) :
      RegistryStep bots (bots ++ [b])

/-- Registry states reachable from the game start (`startGame` line 1163
resets `bots = []`). -/
inductive ReachableRegistry : List Bot → Prop
  | init : ReachableRegistry []
  | step (s s2 : List Bot) (h : ReachableRegistry s) (hs : RegistryStep s s2) :
      ReachableRegistry s2

/-- No two distinct live bots hold the same non-null target handle. -/
def NoSharedTarget (bots : List Bot) : Prop :=
  ∀ i j bi bj r, bots.get? i = some bi → bots.get? j = some bj → i ≠ j →
    bi.target = some r → bj.target = some r → False

/-! ## Claim-side integrator definitions

`claimedIntegrator` transcribes the algorithm the specification ascribes
to *every* actor: normalise, attempt the X move, re-test and move along Y
using the possibly updated X, try perpendicular offsets in both signs when
both moves are blocked, clamp.  `specPlayerIntegrator` and
`specSlideIntegrator` below transcribe the amended description (player:
updated-X Y-test, no fallback; bots/enemies: pre-move tests with the
fallback).  They are written from the prose, to be compared with the
definitions taken from the source. -/

/-- Perpendicular-offset attempt of the spec's corner-wedging fallback:
from `(x, y)`, add (`add = true`) or subtract (`add = false`) the offset
`(ox, oy)`, accepting each axis only if collision-free (the Y test sees
the possibly accepted X), and report whether any axis moved. -/
def perpTry (obstacles : List Obstacle) (radius x y perpX perpY speed : ℚ)
    (add : Bool) : ℚ × ℚ × Bool :=
  let ax := if add then x + perpX * speed else x - perpX * speed
  let ay := if add then y + perpY * speed else y - perpY * speed
  let rx := if collidesWithObstacles obstacles ax y radius
    then (x, false) else (ax, true)
  let ry := if collidesWithObstacles obstacles rx.1 ay radius
    then (y, false) else (ay, true)
  (rx.1, ry.1, rx.2 || ry.2)

/-- The movement integrator as the claim describes it for every actor:
axis-separated with the Y re-test at the updated X, perpendicular
fallback in both signs, final clamp. -/
def claimedIntegrator (obstacles : List Obstacle)
    (x y radius speed dirX dirY len : ℚ) : ℚ × ℚ :=
  if len < 1 / 1000 then (x, y)
  else
    let nx := dirX / len
    let ny := dirY / len
    let vx := nx * speed
    let vy := ny * speed
    let blockedX := collidesWithObstacles obstacles (x + vx) y radius
    let x1 := if blockedX then x else x + vx
    let blockedY := collidesWithObstacles obstacles x1 (y + vy) radius
    let y1 := if blockedY then y else y + vy
    let resolved :=
      if blockedX && blockedY then
        let t1 := perpTry obstacles radius x1 y1 (-ny) nx speed true
        if t1.2.2 then (t1.1, t1.2.1)
        else
          let t2 := perpTry obstacles radius t1.1 t1.2.1 (-ny) nx speed false
          (t2.1, t2.2.1)
      else (x1, y1)
    (clampWorld radius WORLD_WIDTH resolved.1,
     clampWorld radius WORLD_HEIGHT resolved.2)

/-- Amended description of the player's integrator: normalise, attempt X,
re-test and move Y at the possibly updated X, clamp — no perpendicular
fallback. -/
def specPlayerIntegrator (obstacles : List Obstacle)
    (x y radius dx dy : ℚ) : ℚ × ℚ :=
  let x1 := if collidesWithObstacles obstacles (x + dx) y radius then x
    else x + dx
  let y1 := if collidesWithObstacles obstacles x1 (y + dy) radius then y
    else y + dy
  (clampWorld radius WORLD_WIDTH x1, clampWorld radius WORLD_HEIGHT y1)

/-- Amended description of the bot/enemy integrator: both axis moves
tested against the pre-move position, perpendicular offsets tried in both
signs when both are blocked, final clamp. -/
def specSlideIntegrator (obstacles : List Obstacle)
    (x y radius speed dirX dirY len : ℚ) : ℚ × ℚ :=
  if len < 1 / 1000 then (x, y)
  else
    let nx := dirX / len
    let ny := dirY / len
    let vx := nx * speed
    let vy := ny * speed
    let blockedX := collidesWithObstacles obstacles (x + vx) y radius
    let blockedY := collidesWithObstacles obstacles x (y + vy) radius
    let x1 := if blockedX then x else x + vx
    let y1 := if blockedY then y else y + vy
    let resolved :=
      if blockedX && blockedY then
        let t1 := perpTry obstacles radius x1 y1 (-ny) nx speed true
        if t1.2.2 then (t1.1, t1.2.1)
        else
          let t2 := perpTry obstacles radius t1.1 t1.2.1 (-ny) nx speed false
          (t2.1, t2.2.1)
      else (x1, y1)
    (clampWorld radius WORLD_WIDTH resolved.1,
     clampWorld radius WORLD_HEIGHT resolved.2)

/-! ## Concrete scenario data for counterexamples and witnesses -/

/-- A `new Player` outcome (constructor lines 249-319) with the random
position draw fixed at `(x, y)` and the random colour ignored; all other
fields are the constructor's deterministic initial values (`radius = 3.2`,
`baseSpeed = 6/60`, multipliers 1, `bulletDamage` increment `0.2`, …). -/
def mkPlayerAt (x y : ℚ) : Player :=
  { x := x
    y := y
    radius := 16 / 5
    baseSpeed := 1 / 10
    speedMultiplier := 1
    speed := 1 / 10
    dirX := 0
    dirY := 0
    score := 0
    ammo := 0
    facingX := 1
    facingY := 0
    maxHealth := 100
    health := 100
    bulletSpeedMultiplier := 1
    bulletRangeMultiplier := 1
    bulletDamageMultiplier := 1
    level := 0
    upgradePointsEarned := 0
    upgradePointsSpent := 0
    speedBoostFrames := 0
    upgradeIncrementBulletDamage := 1 / 5
    upgradesBulletDamage := 0 }

/-- One rectangle obstacle spanning `[1, 11] × [1, 11]` (width and height
10, inside the generator's 4–12 range). -/
def obstaclesTunnel : List Obstacle := [Obstacle.rect 1 1 10 10]

/-- One circle obstacle of radius 2 (generator range 2–6) tangent to the
left clamp line `x = 3.2` of a radius-3.2 actor. -/
def obstaclesEdge : List Obstacle := [Obstacle.circle (16 / 5) (1011999 / 10000) 2]

/-- Player about to step left past the clamp line, with an active speed
boost (speed `0.1 * 2`). -/
def playerEdge : Player :=
  { mkPlayerAt (33 / 10) 96 with dirX := -1, dirY := 0, speedBoostFrames := 1 }

/-- Two circle obstacles of radius 2 pinching a radius-3.2 actor at
`(50, 50)` from the east and the north. -/
def obstaclesCorner : List Obstacle :=
  [Obstacle.circle (276 / 5) 50 2, Obstacle.circle 50 (276 / 5) 2]

/-- Player wedged at `(50, 50)` pushing diagonally into the pinch. -/
def playerCorner : Player := { mkPlayerAt 50 50 with dirX := 3, dirY := 4 }

/-- Player spawned at `x = 1 < radius` (the constructor draws
`Math.random() * WORLD_WIDTH`, and `startGame` re-rolls only on obstacle
overlap) with no movement input. -/
def playerStranded : Player := mkPlayerAt 1 100

/-- One rectangle obstacle spanning `[40, 60] × [40, 60]`. -/
def obstaclesBox : List Obstacle := [Obstacle.rect 40 40 20 20]

/-- A level-1 fruit at `(53, 54)`. -/
def wedgedItem : Item :=
  { ref := 7, kind := ItemKind.fruit, points := 1, amount := 0,
    radius := 8 / 5, x := 53, y := 54 }

/-- A point bot stuck inside `obstaclesBox` at `(50, 50)`, one stalled
frame short of the stall threshold, targeting `wedgedItem`. -/
def wedgedBot : Bot :=
  { kind := BotKind.point, x := 50, y := 50, radius := 1 / 2, speed := 1 / 20,
    target := some 7, rerouteRank := 2, stalledFrames := BOT_STALL_FRAMES - 1,
    pointsCollected := 0, framesSinceLastCollection := 0 }

/-- A `Math.hypot` oracle pinned to the two evaluations of the wedged-bot
scenario: `hyp 3 4 = 5`, everything else 0 (so `hyp 0 0 = 0`). -/
def hyp345 : ℚ → ℚ → ℚ := fun a b => if a = 3 ∧ b = 4 then 5 else 0

/-- Player holding ammunition, aiming along `(3, 4)`, with a 1.5× bullet
damage multiplier and one unspent upgrade point. -/
def gunner : Player :=
  { mkPlayerAt 50 50 with
    ammo := 2
    facingX := 3
    facingY := 4
    bulletDamageMultiplier := 3 / 2
    upgradePointsEarned := 1 }

/-- The gunner with an empty magazine. -/
def ammoless : Player := { gunner with ammo := 0 }

/-- The gunner with a degenerate (zero) facing vector. -/
def aimless : Player := { gunner with facingX := 0, facingY := 0 }

/-- A live health boost overlapping `mkPlayerAt 50 50`. -/
def boostSample : HBoost := { x := 51, y := 51, radius := 12 / 5, spawnFrame := 0 }

/-- A freshly purchased point bot (constructor lines 605-639 with the
player at `(100, 100)`): no target, rank 2, counters 0. -/
def freshPointBot : Bot :=
  { kind := BotKind.point, x := 100, y := 100, radius := 1 / 2, speed := 1 / 20,
    target := none, rerouteRank := 2, stalledFrames := 0,
    pointsCollected := 0, framesSinceLastCollection := 0 }

/-- A freshly purchased ammo bot. -/
def freshAmmoBot : Bot := { freshPointBot with kind := BotKind.ammo }

/-- The claim's invariant: no two distinct live collector bots of the same
role hold the same non-null target reference. -/
def NoSharedSameRoleTarget (bots : List Bot) : Prop :=
  ∀ i j bi bj r, bots.get? i = some bi → bots.get? j = some bj → i ≠ j →
    bi.kind = bj.kind → bi.target = some r → bj.target = some r → False

/-! ## Helper lemmas -/

/-- Uniqueness of the nonnegative square root behind `IsHypot`. -/
theorem IsHypot.eq_of_sq (a b l v : ℚ) (h : IsHypot a b l) (hv : 0 ≤ v)
    (hvv : v * v = a * a + b * b) : l = v := by
  obtain ⟨hl, hll⟩ := h
  have hzero : (l - v) * (l + v) = 0 := by nlinarith
  rcases mul_eq_zero.mp hzero with h1 | h1
  · linarith
  · have hv0 : v = 0 := by linarith
    have hl0 : l = 0 := by linarith
    rw [hv0, hl0]

/-- The boundary clamp fixes values already inside the band. -/
theorem clampWorld_eq_self (radius dim v : ℚ) (h1 : radius ≤ v)
    (h2 : v ≤ dim - radius) : clampWorld radius dim v = v := by
  unfold clampWorld
  rw [min_eq_right h2, max_eq_right h1]

/-- The boundary clamp lands in `[radius, dim - radius]` whenever the band
is nonempty. -/
theorem clampWorld_mem (radius dim v : ℚ) (h : 2 * radius ≤ dim) :
    radius ≤ clampWorld radius dim v ∧ clampWorld radius dim v ≤ dim - radius := by
  constructor
  · exact le_max_left _ _
  · exact max_le (by linarith) (min_le_left _ _)

/-- Safety of the player's axis-separated move: because the Y move is
tested against the already-updated X, a non-colliding start yields a
non-colliding pre-clamp result. -/
theorem playerMoveAxes_safe (obstacles : List Obstacle) (x y radius dx dy : ℚ)
    (h : collidesWithObstacles obstacles x y radius = false) :
    collidesWithObstacles obstacles
      (playerMoveAxes obstacles x y radius dx dy).1
      (playerMoveAxes obstacles x y radius dx dy).2 radius = false := by
  unfold playerMoveAxes
  cases hX : collidesWithObstacles obstacles (x + dx) y radius with
  | false =>
      cases hY : collidesWithObstacles obstacles (x + dx) (y + dy) radius with
      | false => simp [hX, hY]
      | true => simp [hX, hY]
  | true =>
      cases hY : collidesWithObstacles obstacles x (y + dy) radius with
      | false => simp [hX, hY]
      | true => simp [hX, hY, h]

/-- Position components of `Player.update`. -/
theorem playerUpdate_x (obstacles : List Obstacle) (p : Player) (len : ℚ) :
    (playerUpdate obstacles p len).x
      = if 0 < len then
          clampWorld p.radius WORLD_WIDTH
            (playerMoveAxes obstacles p.x p.y p.radius
              (playerStepX p len) (playerStepY p len)).1
        else p.x := by
  unfold playerUpdate
  by_cases hL : 0 < len <;> simp [hL] <;> split <;> rfl

/-- Position components of `Player.update`, Y axis. -/
theorem playerUpdate_y (obstacles : List Obstacle) (p : Player) (len : ℚ) :
    (playerUpdate obstacles p len).y
      = if 0 < len then
          clampWorld p.radius WORLD_HEIGHT
            (playerMoveAxes obstacles p.x p.y p.radius
              (playerStepX p len) (playerStepY p len)).2
        else p.y := by
  unfold playerUpdate
  by_cases hL : 0 < len <;> simp [hL] <;> split <;> rfl

/-! ## C1 -/

/-- C1 (amended).  For the *player*, whose Y-axis test uses the already
updated X position, a tick starting at a non-colliding position resolves
to a non-colliding position provided the axis-resolved position already
lies within the world band (so the final boundary clamp is the identity).
For collector bots and chasing enemies the claim fails: their Y test uses
the pre-move X and the clamp is never re-checked (see the
counterexample). -/
theorem player_resolved_position_avoids_obstacles
    (obstacles : List Obstacle) (p : Player) (len : ℚ)
    (hlen : IsHypot p.dirX p.dirY len)
    (hstart : collidesWithObstacles obstacles p.x p.y p.radius = false)
    (hx1 : p.radius ≤ (playerMoveAxes obstacles p.x p.y p.radius
        (playerStepX p len) (playerStepY p len)).1)
    (hx2 : (playerMoveAxes obstacles p.x p.y p.radius
        (playerStepX p len) (playerStepY p len)).1 ≤ WORLD_WIDTH - p.radius)
    (hy1 : p.radius ≤ (playerMoveAxes obstacles p.x p.y p.radius
        (playerStepX p len) (playerStepY p len)).2)
    (hy2 : (playerMoveAxes obstacles p.x p.y p.radius
        (playerStepX p len) (playerStepY p len)).2 ≤ WORLD_HEIGHT - p.radius) :
    collidesWithObstacles obstacles (playerUpdate obstacles p len).x
      (playerUpdate obstacles p len).y p.radius = false := by
  rw [playerUpdate_x, playerUpdate_y]
  by_cases hL : 0 < len
  · rw [if_pos hL, if_pos hL, clampWorld_eq_self _ _ _ hx1 hx2,
      clampWorld_eq_self _ _ _ hy1 hy2]
    exact playerMoveAxes_safe obstacles p.x p.y p.radius _ _ hstart
  · rw [if_neg hL, if_neg hL]
    exact hstart

/-- Witness for C1: a concrete unobstructed diagonal step. -/
theorem player_resolved_position_avoids_obstacles_witness :
    IsHypot playerCorner.dirX playerCorner.dirY 5 ∧
    collidesWithObstacles obstaclesTunnel playerCorner.x playerCorner.y
      playerCorner.radius = false ∧
    collidesWithObstacles obstaclesTunnel
      (playerUpdate obstaclesTunnel playerCorner 5).x
      (playerUpdate obstaclesTunnel playerCorner 5).y playerCorner.radius = false := by
  refine ⟨by norm_num [IsHypot, playerCorner, mkPlayerAt], ?_, ?_⟩
  · norm_num [collidesWithObstacles, obstacleHit, obstaclesTunnel, playerCorner,
      mkPlayerAt]
  · exact player_resolved_position_avoids_obstacles obstaclesTunnel playerCorner 5
      (by norm_num [IsHypot, playerCorner, mkPlayerAt])
      (by norm_num [collidesWithObstacles, obstacleHit, obstaclesTunnel,
        playerCorner, mkPlayerAt])
      (by norm_num [playerMoveAxes, playerStepX, playerStepY, playerSpeedNow,
        collidesWithObstacles, obstacleHit, obstaclesTunnel, playerCorner,
        mkPlayerAt])
      (by norm_num [playerMoveAxes, playerStepX, playerStepY, playerSpeedNow,
        collidesWithObstacles, obstacleHit, obstaclesTunnel, playerCorner,
        mkPlayerAt, WORLD_WIDTH])
      (by norm_num [playerMoveAxes, playerStepX, playerStepY, playerSpeedNow,
        collidesWithObstacles, obstacleHit, obstaclesTunnel, playerCorner,
        mkPlayerAt])
      (by norm_num [playerMoveAxes, playerStepX, playerStepY, playerSpeedNow,
        collidesWithObstacles, obstacleHit, obstaclesTunnel, playerCorner,
        mkPlayerAt, WORLD_HEIGHT])

/-- Counterexample to C1 as stated.  A collector bot starting clear of the
obstacle field makes its diagonal step and resolves *inside* the rectangle
corner (its Y test used the pre-move X), and the player's boundary clamp
moves a resolved position into an obstacle tangent to the clamp line. -/
theorem bot_diagonal_step_lands_in_obstacle :
    IsHypot 3 4 5 ∧
    collidesWithObstacles obstaclesTunnel (67 / 100) (561 / 1000) (1 / 2) = false ∧
    botMoveTowards obstaclesTunnel (67 / 100) (561 / 1000) (1 / 2) (1 / 20)
      (some (367 / 100, 4561 / 1000)) 5 = (7 / 10, 601 / 1000) ∧
    collidesWithObstacles obstaclesTunnel (7 / 10) (601 / 1000) (1 / 2) = true ∧
    IsHypot playerEdge.dirX playerEdge.dirY 1 ∧
    collidesWithObstacles obstaclesEdge playerEdge.x playerEdge.y
      playerEdge.radius = false ∧
    (playerUpdate obstaclesEdge playerEdge 1).x = 16 / 5 ∧
    (playerUpdate obstaclesEdge playerEdge 1).y = 96 ∧
    collidesWithObstacles obstaclesEdge (16 / 5) 96 playerEdge.radius = true := by
  refine ⟨by norm_num [IsHypot], ?_, ?_, ?_, ?_, ?_, ?_, ?_, ?_⟩
  · norm_num [collidesWithObstacles, obstacleHit, obstaclesTunnel]
  · norm_num [botMoveTowards, moveInDirection, collidesWithObstacles, obstacleHit,
      obstaclesTunnel, clampWorld, WORLD_WIDTH, WORLD_HEIGHT]
  · norm_num [collidesWithObstacles, obstacleHit, obstaclesTunnel]
  · norm_num [IsHypot, playerEdge, mkPlayerAt]
  · norm_num [collidesWithObstacles, obstacleHit, obstaclesEdge, playerEdge,
      mkPlayerAt]
  · norm_num [playerUpdate_x, playerMoveAxes, playerStepX, playerStepY,
      playerSpeedNow, collidesWithObstacles, obstacleHit, obstaclesEdge,
      playerEdge, mkPlayerAt, clampWorld, WORLD_WIDTH]
  · norm_num [playerUpdate_y, playerMoveAxes, playerStepX, playerStepY,
      playerSpeedNow, collidesWithObstacles, obstacleHit, obstaclesEdge,
      playerEdge, mkPlayerAt, clampWorld, WORLD_HEIGHT]
  · norm_num [collidesWithObstacles, obstacleHit, obstaclesEdge, playerEdge,
      mkPlayerAt]

/-! ## C2 -/

/-- C2 (amended).  Whenever the tick actually performs a movement (player:
direction length `> 0`; bot or chasing enemy: a target is present and the
direction length is not below the `0.001` epsilon) and the actor's radius
is at most half the world dimension, the post-movement position lies
within `[radius, dimension - radius]` on both axes.  Without a movement
(zero direction, or no target) no clamp runs, and a position out of the
band — reachable, since spawning draws from `[0, WORLD_WIDTH)` — persists
(see the counterexample). -/
theorem moved_actor_position_within_world_bounds :
    (∀ (obstacles : List Obstacle) (p : Player) (len : ℚ), 0 < len →
      2 * p.radius ≤ WORLD_WIDTH → 2 * p.radius ≤ WORLD_HEIGHT →
      p.radius ≤ (playerUpdate obstacles p len).x ∧
      (playerUpdate obstacles p len).x ≤ WORLD_WIDTH - p.radius ∧
      p.radius ≤ (playerUpdate obstacles p len).y ∧
      (playerUpdate obstacles p len).y ≤ WORLD_HEIGHT - p.radius) ∧
    (∀ (obstacles : List Obstacle) (x y radius speed dirX dirY len : ℚ),
      ¬ len < 1 / 1000 →
      2 * radius ≤ WORLD_WIDTH → 2 * radius ≤ WORLD_HEIGHT →
      radius ≤ (moveInDirection obstacles x y radius speed dirX dirY len).1 ∧
      (moveInDirection obstacles x y radius speed dirX dirY len).1
        ≤ WORLD_WIDTH - radius ∧
      radius ≤ (moveInDirection obstacles x y radius speed dirX dirY len).2 ∧
      (moveInDirection obstacles x y radius speed dirX dirY len).2
        ≤ WORLD_HEIGHT - radius) ∧
    (∀ (obstacles : List Obstacle) (x y radius speed : ℚ) (t : ℚ × ℚ) (len : ℚ),
      ¬ len < 1 / 1000 →
      2 * radius ≤ WORLD_WIDTH → 2 * radius ≤ WORLD_HEIGHT →
      radius ≤ (botMoveTowards obstacles x y radius speed (some t) len).1 ∧
      (botMoveTowards obstacles x y radius speed (some t) len).1
        ≤ WORLD_WIDTH - radius ∧
      radius ≤ (botMoveTowards obstacles x y radius speed (some t) len).2 ∧
      (botMoveTowards obstacles x y radius speed (some t) len).2
        ≤ WORLD_HEIGHT - radius) := by
  have hmv : ∀ (obstacles : List Obstacle) (x y radius speed dirX dirY len : ℚ),
      ¬ len < 1 / 1000 →
      2 * radius ≤ WORLD_WIDTH → 2 * radius ≤ WORLD_HEIGHT →
      radius ≤ (moveInDirection obstacles x y radius speed dirX dirY len).1 ∧
      (moveInDirection obstacles x y radius speed dirX dirY len).1
        ≤ WORLD_WIDTH - radius ∧
      radius ≤ (moveInDirection obstacles x y radius speed dirX dirY len).2 ∧
      (moveInDirection obstacles x y radius speed dirX dirY len).2
        ≤ WORLD_HEIGHT - radius := by
    intro obstacles x y radius speed dirX dirY len hlen hw hh
    unfold moveInDirection
    rw [if_neg hlen]
    refine ⟨(clampWorld_mem _ _ _ hw).1, (clampWorld_mem _ _ _ hw).2,
      (clampWorld_mem _ _ _ hh).1, (clampWorld_mem _ _ _ hh).2⟩
  refine ⟨?_, hmv, ?_⟩
  · intro obstacles p len hlen hw hh
    rw [playerUpdate_x, playerUpdate_y, if_pos hlen, if_pos hlen]
    exact ⟨(clampWorld_mem _ _ _ hw).1, (clampWorld_mem _ _ _ hw).2,
      (clampWorld_mem _ _ _ hh).1, (clampWorld_mem _ _ _ hh).2⟩
  · intro obstacles x y radius speed t len hlen hw hh
    exact hmv obstacles x y radius speed (t.1 - x) (t.2 - y) len hlen hw hh

/-- Witness for C2: the concrete diagonal step of `playerCorner` and a
concrete bot step both land inside the band. -/
theorem moved_actor_position_within_world_bounds_witness :
    (0 : ℚ) < 5 ∧ 2 * playerCorner.radius ≤ WORLD_WIDTH ∧
    2 * playerCorner.radius ≤ WORLD_HEIGHT ∧
    (playerCorner.radius ≤ (playerUpdate obstaclesTunnel playerCorner 5).x ∧
     (playerUpdate obstaclesTunnel playerCorner 5).x
       ≤ WORLD_WIDTH - playerCorner.radius ∧
     playerCorner.radius ≤ (playerUpdate obstaclesTunnel playerCorner 5).y ∧
     (playerUpdate obstaclesTunnel playerCorner 5).y
       ≤ WORLD_HEIGHT - playerCorner.radius) ∧
    ((1 : ℚ) / 2 ≤ (botMoveTowards obstaclesTunnel (67 / 100) (561 / 1000) (1 / 2)
        (1 / 20) (some (367 / 100, 4561 / 1000)) 5).1 ∧
     (botMoveTowards obstaclesTunnel (67 / 100) (561 / 1000) (1 / 2)
        (1 / 20) (some (367 / 100, 4561 / 1000)) 5).1 ≤ WORLD_WIDTH - 1 / 2) := by
  refine ⟨by norm_num, by norm_num [playerCorner, mkPlayerAt, WORLD_WIDTH],
    by norm_num [playerCorner, mkPlayerAt, WORLD_HEIGHT], ?_, ?_⟩
  · exact moved_actor_position_within_world_bounds.1 obstaclesTunnel playerCorner 5
      (by norm_num)
      (by norm_num [playerCorner, mkPlayerAt, WORLD_WIDTH])
      (by norm_num [playerCorner, mkPlayerAt, WORLD_HEIGHT])
  · have h := (moved_actor_position_within_world_bounds.2.2 obstaclesTunnel
      (67 / 100) (561 / 1000) (1 / 2) (1 / 20) (367 / 100, 4561 / 1000) 5
      (by norm_num)
      (by norm_num [WORLD_WIDTH])
      (by norm_num [WORLD_HEIGHT]))
    exact ⟨h.1, h.2.1⟩

/-- Counterexample to C2 as stated: a player spawned at `x = 1` (inside
`[0, WORLD_WIDTH)`, so reachable) with zero direction input keeps
`x = 1 < radius = 3.2` after its movement step. -/
theorem stranded_player_remains_out_of_bounds :
    IsHypot playerStranded.dirX playerStranded.dirY 0 ∧
    (playerUpdate [] playerStranded 0).x = 1 ∧
    ¬ playerStranded.radius ≤ (playerUpdate [] playerStranded 0).x := by
  refine ⟨by norm_num [IsHypot, playerStranded, mkPlayerAt], ?_, ?_⟩
  · norm_num [playerUpdate_x, playerStranded, mkPlayerAt]
  · norm_num [playerUpdate_x, playerStranded, mkPlayerAt]

/-! ## C3 -/

/-- C3.  When the round timer completes (`progressFrame` reaches
`PROGRESS_BAR_FRAMES`) the game-loop step runs `startNewRound`, which
increments the round by exactly 1, adds exactly 20 to every pre-existing
enemy's max and current health, appends exactly one enemy whose max
health is `player.maxHealth + 20 * (new round - 1)`, and multiplies the
item spawn interval by 0.9; in particular round 1 → 2 with one enemy at
max health 100 and player max health 100 yields two enemies at max health
120 each. -/
theorem round_transition_effects (r pf : ℕ) (pbs : Bool)
    (enemies : List RoundEnemy) (interval m : ℚ) :
    progressTick ⟨r, PROGRESS_BAR_FRAMES, pbs, enemies, interval, some m⟩
      = startNewRound ⟨r, PROGRESS_BAR_FRAMES, pbs, enemies, interval, some m⟩ ∧
    startNewRound ⟨r, pf, pbs, enemies, interval, some m⟩
      = ⟨r + 1, 0, false,
          (enemies.map fun e => ⟨e.maxHealth + 20, e.health + 20⟩)
            ++ [⟨m + 20 * (((r + 1 : ℕ) : ℚ) - 1), m + 20 * (((r + 1 : ℕ) : ℚ) - 1)⟩],
          interval * (9 / 10), some m⟩ ∧
    (startNewRound ⟨r, pf, pbs, enemies, interval, some m⟩).targetBots.length
      = enemies.length + 1 ∧
    startNewRound ⟨1, pf, pbs, [⟨100, 100⟩], interval, some 100⟩
      = ⟨2, 0, false, [⟨120, 120⟩, ⟨120, 120⟩], interval * (9 / 10), some 100⟩ := by
  refine ⟨?_, ?_, ?_, ?_⟩
  · simp [progressTick]
  · simp [startNewRound]
  · simp [startNewRound]
  · simp only [startNewRound, List.map_cons, List.map_nil]
    norm_num

/-! ## C4 -/

/-- C4.  The level thresholds are `nextLevelThreshold L = 20 + 22 L`,
giving 20, 42, 64, 86, 108, 130, and a single collection event that takes
a level-0, score-0 player to score 130 runs the level-up loop through all
six thresholds, granting exactly 6 levels and 6 upgrade points in that one
update. -/
theorem level_up_loop_grants_six_levels (p : Player) :
    nextLevelThreshold 0 = 20 ∧ nextLevelThreshold 1 = 42 ∧
    nextLevelThreshold 2 = 64 ∧ nextLevelThreshold 3 = 86 ∧
    nextLevelThreshold 4 = 108 ∧ nextLevelThreshold 5 = 130 ∧
    (collectFruitScore { p with score := 0, level := 0 } 130).score = 130 ∧
    (collectFruitScore { p with score := 0, level := 0 } 130).level = 6 ∧
    (collectFruitScore { p with score := 0, level := 0 } 130).upgradePointsEarned
      = p.upgradePointsEarned + 6 := by
  refine ⟨rfl, rfl, rfl, rfl, rfl, rfl, ?_, ?_, ?_⟩ <;>
    simp [collectFruitScore, levelLoop, nextLevelThreshold]

/-! ## C5 -/

set_option maxRecDepth 4000

/-- C5 (code bug).  A collector bot one frame short of the stall threshold,
wedged inside an obstacle with a live target, reaches
`stalledFrames = BOT_STALL_FRAMES` during its update; the stall branch
relocates it (the oracle supplies the valid spot `(10, 10)`) and clears
`target`, and the very next statement of `Bot.update` (line 849) reads
`this.target.x` — a `TypeError` on `null`.  The update therefore aborts
(`none`) instead of completing with `target == null` and
`stalledFrames == 0` as the claim states. -/
theorem bot_stall_respawn_null_target_crash (hyp : ℚ → ℚ → ℚ)
    (h34 : IsHypot 3 4 (hyp 3 4)) (h00 : IsHypot 0 0 (hyp 0 0)) :
    botUpdate hyp obstaclesBox [wedgedBot] 0 (mkPlayerAt 100 100) [wedgedItem]
      wedgedBot [(10, 10)] [] = none := by
  have e34 : hyp 3 4 = 5 := IsHypot.eq_of_sq 3 4 _ 5 h34 (by norm_num) (by norm_num)
  have e00 : hyp 0 0 = 0 := IsHypot.eq_of_sq 0 0 _ 0 h00 (by norm_num) (by norm_num)
  norm_num [botUpdate, wedgedBot, wedgedItem, obstaclesBox, mkPlayerAt,
    BOT_POINTS_TIMEOUT_FRAMES, BOT_STALL_FRAMES, findTarget, findTargetScan,
    reservedByOther, reservedScan, botItemDistSq, botMoveTowards, moveInDirection,
    collidesWithObstacles, obstacleHit, clampWorld, WORLD_WIDTH, WORLD_HEIGHT,
    findFarthestTarget, farCandidates, sortDesc, insertDesc, respawnScan,
    roleMatches, e34, e00, List.filterMap_cons, List.filterMap_nil,
    List.isEmpty_cons, List.getElem?_cons_zero, List.getElem?_cons_succ,
    Option.map_some', Option.map_none', min_def]

/-- Witness for C5: the pinned oracle `hyp345` satisfies both `IsHypot`
side conditions, and the update aborts. -/
theorem bot_stall_respawn_null_target_crash_witness :
    botUpdate hyp345 obstaclesBox [wedgedBot] 0 (mkPlayerAt 100 100) [wedgedItem]
      wedgedBot [(10, 10)] [] = none :=
  bot_stall_respawn_null_target_crash hyp345
    (by norm_num [hyp345, IsHypot]) (by norm_num [hyp345, IsHypot])

/-! ## C6 -/

/-- C6.  Firing copies the current 1.5× damage multiplier into the
bullet: the created projectile stores exactly `20 * 1.5 = 30` damage; a
subsequent bullet-damage upgrade changes the firer's multiplier, yet the
hit handler subtracts exactly the stored 30 (floored at zero) — it reads
only `bullet.damage`. -/
theorem bullet_damage_copy_on_create (hyp : ℚ → ℚ → ℚ) (p : Player)
    (bullets : List Bullet) (h : ℚ)
    (hm : p.bulletDamageMultiplier = 3 / 2)
    (hammo : p.ammo ≠ 0)
    (hnd : ¬ hyp p.facingX p.facingY < 1 / 1000)
    (havail : p.upgradePointsEarned - p.upgradePointsSpent ≠ 0) :
    (shoot hyp true p bullets).1
      = bullets ++ [mkBullet p.x p.y p.facingX p.facingY (hyp p.facingX p.facingY)
          p.bulletSpeedMultiplier p.bulletRangeMultiplier
          p.bulletDamageMultiplier p.radius] ∧
    (mkBullet p.x p.y p.facingX p.facingY (hyp p.facingX p.facingY)
        p.bulletSpeedMultiplier p.bulletRangeMultiplier
        p.bulletDamageMultiplier p.radius).damage = 30 ∧
    (applyUpgradeBulletDamage p).bulletDamageMultiplier
      = 3 / 2 + p.upgradeIncrementBulletDamage ∧
    bulletHitHealth (mkBullet p.x p.y p.facingX p.facingY (hyp p.facingX p.facingY)
        p.bulletSpeedMultiplier p.bulletRangeMultiplier
        p.bulletDamageMultiplier p.radius) h
      = if h - 30 < 0 then 0 else h - 30 := by
  refine ⟨?_, ?_, ?_, ?_⟩
  · unfold shoot
    rw [if_neg (by decide), if_neg hammo, if_neg hnd]
  · simp [mkBullet, BASE_BULLET_DAMAGE, hm]
    norm_num
  · simp [applyUpgradeBulletDamage, havail, hm]
  · simp [bulletHitHealth, mkBullet, BASE_BULLET_DAMAGE, hm]
    norm_num

/-- Witness for C6: the `gunner` (multiplier 1.5, loaded, aiming along
`(3, 4)`, one unspent point) at enemy health 40. -/
theorem bullet_damage_copy_on_create_witness :
    gunner.bulletDamageMultiplier = 3 / 2 ∧
    ((shoot hyp345 true gunner []).1
      = [mkBullet gunner.x gunner.y gunner.facingX gunner.facingY
          (hyp345 gunner.facingX gunner.facingY) gunner.bulletSpeedMultiplier
          gunner.bulletRangeMultiplier gunner.bulletDamageMultiplier gunner.radius] ∧
     (mkBullet gunner.x gunner.y gunner.facingX gunner.facingY
        (hyp345 gunner.facingX gunner.facingY) gunner.bulletSpeedMultiplier
        gunner.bulletRangeMultiplier gunner.bulletDamageMultiplier
        gunner.radius).damage = 30 ∧
     (applyUpgradeBulletDamage gunner).bulletDamageMultiplier
       = 3 / 2 + gunner.upgradeIncrementBulletDamage ∧
     bulletHitHealth (mkBullet gunner.x gunner.y gunner.facingX gunner.facingY
        (hyp345 gunner.facingX gunner.facingY) gunner.bulletSpeedMultiplier
        gunner.bulletRangeMultiplier gunner.bulletDamageMultiplier
        gunner.radius) 40
       = if (40 : ℚ) - 30 < 0 then 0 else 40 - 30) := by
  constructor
  · norm_num [gunner, mkPlayerAt]
  · have h := bullet_damage_copy_on_create hyp345 gunner [] 40
      (by norm_num [gunner, mkPlayerAt])
      (by norm_num [gunner, mkPlayerAt])
      (by norm_num [gunner, mkPlayerAt, hyp345])
      (by norm_num [gunner, mkPlayerAt])
    simpa using h

/-! ## C7 -/

/-- C7.  `shoot` is a no-op (no projectile, ammo unchanged) when the ammo
count is 0 or the facing vector is degenerate (length below the `0.001`
epsilon); with positive ammo and a non-degenerate facing it appends
exactly one projectile seeded with the player's current
speed/range/damage multipliers and decrements the ammo by exactly 1. -/
theorem shoot_guard_and_fire_effects (hyp : ℚ → ℚ → ℚ) (p : Player)
    (bullets : List Bullet) :
    (∀ gameRunning : Bool, p.ammo = 0 →
      shoot hyp gameRunning p bullets = (bullets, p)) ∧
    (∀ gameRunning : Bool,
      IsHypot p.facingX p.facingY (hyp p.facingX p.facingY) →
      hyp p.facingX p.facingY < 1 / 1000 →
      shoot hyp gameRunning p bullets = (bullets, p)) ∧
    (p.ammo ≠ 0 → ¬ hyp p.facingX p.facingY < 1 / 1000 →
      shoot hyp true p bullets
        = (bullets ++ [mkBullet p.x p.y p.facingX p.facingY
            (hyp p.facingX p.facingY) p.bulletSpeedMultiplier
            p.bulletRangeMultiplier p.bulletDamageMultiplier p.radius],
           { p with ammo := p.ammo - 1 }) ∧
      (shoot hyp true p bullets).1.length = bullets.length + 1 ∧
      (mkBullet p.x p.y p.facingX p.facingY (hyp p.facingX p.facingY)
          p.bulletSpeedMultiplier p.bulletRangeMultiplier
          p.bulletDamageMultiplier p.radius).damage
        = BASE_BULLET_DAMAGE * p.bulletDamageMultiplier ∧
      (mkBullet p.x p.y p.facingX p.facingY (hyp p.facingX p.facingY)
          p.bulletSpeedMultiplier p.bulletRangeMultiplier
          p.bulletDamageMultiplier p.radius).life
        = DEFAULT_BULLET_LIFE * p.bulletRangeMultiplier ∧
      (mkBullet p.x p.y p.facingX p.facingY (hyp p.facingX p.facingY)
          p.bulletSpeedMultiplier p.bulletRangeMultiplier
          p.bulletDamageMultiplier p.radius).dx
        = p.facingX / hyp p.facingX p.facingY
            * (DEFAULT_BULLET_SPEED * p.bulletSpeedMultiplier)) := by
  refine ⟨?_, ?_, ?_⟩
  · intro gameRunning hz
    cases gameRunning
    · unfold shoot
      rw [if_pos (by decide)]
    · unfold shoot
      rw [if_neg (by decide), if_pos hz]
  · intro gameRunning _ hdeg
    cases gameRunning
    · unfold shoot
      rw [if_pos (by decide)]
    · unfold shoot
      rw [if_neg (by decide)]
      by_cases hz : p.ammo = 0
      · rw [if_pos hz]
      · rw [if_neg hz, if_pos hdeg]
  · intro hz hnd
    have hfire : shoot hyp true p bullets
        = (bullets ++ [mkBullet p.x p.y p.facingX p.facingY
            (hyp p.facingX p.facingY) p.bulletSpeedMultiplier
            p.bulletRangeMultiplier p.bulletDamageMultiplier p.radius],
           { p with ammo := p.ammo - 1 }) := by
      unfold shoot
      rw [if_neg (by decide), if_neg hz, if_neg hnd]
    refine ⟨hfire, ?_, rfl, rfl, rfl⟩
    rw [hfire]
    simp

/-- Witness for C7: empty magazine, degenerate aim, and a live shot by the
`gunner`. -/
theorem shoot_guard_and_fire_effects_witness :
    ammoless.ammo = 0 ∧
    shoot hyp345 true ammoless [] = ([], ammoless) ∧
    IsHypot aimless.facingX aimless.facingY (hyp345 aimless.facingX aimless.facingY) ∧
    shoot hyp345 true aimless [] = ([], aimless) ∧
    gunner.ammo ≠ 0 ∧
    shoot hyp345 true gunner []
      = ([mkBullet gunner.x gunner.y gunner.facingX gunner.facingY
          (hyp345 gunner.facingX gunner.facingY) gunner.bulletSpeedMultiplier
          gunner.bulletRangeMultiplier gunner.bulletDamageMultiplier gunner.radius],
         { gunner with ammo := gunner.ammo - 1 }) := by
  refine ⟨rfl, ?_, ?_, ?_, ?_, ?_⟩
  · exact (shoot_guard_and_fire_effects hyp345 ammoless []).1 true rfl
  · norm_num [IsHypot, aimless, gunner, mkPlayerAt, hyp345]
  · exact (shoot_guard_and_fire_effects hyp345 aimless []).2.1 true
      (by norm_num [IsHypot, aimless, gunner, mkPlayerAt, hyp345])
      (by norm_num [aimless, gunner, mkPlayerAt, hyp345])
  · norm_num [gunner, mkPlayerAt]
  · have h := ((shoot_guard_and_fire_effects hyp345 gunner []).2.2
      (by norm_num [gunner, mkPlayerAt])
      (by norm_num [gunner, mkPlayerAt, hyp345])).1
    simpa using h

/-! ## C8 -/

/-- C8 (amended).  The integrators differ by actor.  The *player*
normalizes, attempts the X move, re-tests and moves along Y using the
possibly updated X, and clamps — with **no** perpendicular fallback
(`specPlayerIntegrator`).  The *bot/enemy* integrator tests both axis
moves against the pre-move position (a Y move blocked at the old X stays
blocked even when the updated X would clear it), tries perpendicular
offsets in both signs when both axes are blocked, and clamps;
`Bot.moveTowardsTarget` is that integrator applied to the target offset
vector. -/
theorem integrator_description_amended :
    (∀ (obstacles : List Obstacle) (p : Player) (len : ℚ),
      ((playerUpdate obstacles p len).x, (playerUpdate obstacles p len).y)
        = if 0 < len then
            specPlayerIntegrator obstacles p.x p.y p.radius
              (playerStepX p len) (playerStepY p len)
          else (p.x, p.y)) ∧
    (∀ (obstacles : List Obstacle) (x y radius speed dirX dirY len : ℚ),
      ¬ len < 1 / 1000 →
      collidesWithObstacles obstacles (x + dirX / len * speed) y radius = false →
      collidesWithObstacles obstacles x (y + dirY / len * speed) radius = true →
      moveInDirection obstacles x y radius speed dirX dirY len
        = (clampWorld radius WORLD_WIDTH (x + dirX / len * speed),
           clampWorld radius WORLD_HEIGHT y)) ∧
    (∀ (obstacles : List Obstacle) (x y radius speed dirX dirY len : ℚ),
      ¬ len < 1 / 1000 →
      collidesWithObstacles obstacles (x + dirX / len * speed) y radius = true →
      collidesWithObstacles obstacles x (y + dirY / len * speed) radius = true →
      collidesWithObstacles obstacles (x + -(dirY / len) * speed) y radius = false →
      (moveInDirection obstacles x y radius speed dirX dirY len).1
        = clampWorld radius WORLD_WIDTH (x + -(dirY / len) * speed)) ∧
    (∀ (obstacles : List Obstacle) (x y radius speed dirX dirY len : ℚ),
      ¬ len < 1 / 1000 →
      collidesWithObstacles obstacles (x + dirX / len * speed) y radius = true →
      collidesWithObstacles obstacles x (y + dirY / len * speed) radius = true →
      collidesWithObstacles obstacles (x + -(dirY / len) * speed) y radius = true →
      collidesWithObstacles obstacles x (y + dirX / len * speed) radius = true →
      collidesWithObstacles obstacles (x - -(dirY / len) * speed) y radius = false →
      (moveInDirection obstacles x y radius speed dirX dirY len).1
        = clampWorld radius WORLD_WIDTH (x - -(dirY / len) * speed)) ∧
    (∀ (obstacles : List Obstacle) (x y radius speed : ℚ) (t : ℚ × ℚ) (len : ℚ),
      botMoveTowards obstacles x y radius speed (some t) len
        = moveInDirection obstacles x y radius speed (t.1 - x) (t.2 - y) len) := by
  refine ⟨?_, ?_, ?_, ?_, ?_⟩
  · intro obstacles p len
    rw [playerUpdate_x, playerUpdate_y]
    by_cases hL : 0 < len
    · simp [hL, specPlayerIntegrator, playerMoveAxes]
    · simp [hL]
  · intro obstacles x y radius speed dirX dirY len hlen h1 h2
    unfold moveInDirection
    rw [if_neg hlen]
    simp [h1, h2]
  · intro obstacles x y radius speed dirX dirY len hlen h1 h2 h3
    unfold moveInDirection
    rw [if_neg hlen]
    rw [neg_mul] at h3
    simp [h1, h2, h3]
  · intro obstacles x y radius speed dirX dirY len hlen h1 h2 h3 h4 h5
    unfold moveInDirection
    rw [if_neg hlen]
    rw [neg_mul] at h3
    rw [neg_mul, sub_neg_eq_add] at h5
    simp [h1, h2, h3, h4, h5]
  · intro obstacles x y radius speed t len
    rfl

/-- Witness for C8: each amended conjunct exercised on concrete
obstacle fields — a free diagonal player step, a bot whose Y move stays
blocked at the pre-move X, a pinched enemy escaping by the positive
perpendicular offset, and a wall-hugging bot escaping by the negative
one. -/
theorem integrator_description_amended_witness :
    ((playerUpdate obstaclesCorner playerCorner 5).x,
        (playerUpdate obstaclesCorner playerCorner 5).y)
      = specPlayerIntegrator obstaclesCorner playerCorner.x playerCorner.y
          playerCorner.radius (playerStepX playerCorner 5)
          (playerStepY playerCorner 5) ∧
    moveInDirection obstaclesTunnel (74 / 100) (55 / 100) (1 / 2) (1 / 20) 3 4 5
      = (clampWorld (1 / 2) WORLD_WIDTH (74 / 100 + 3 / 5 * (1 / 20)),
         clampWorld (1 / 2) WORLD_HEIGHT (55 / 100)) ∧
    (moveInDirection obstaclesCorner 50 50 (16 / 5) (1 / 10) 3 4 5).1
      = clampWorld (16 / 5) WORLD_WIDTH (50 + -(4 / 5) * (1 / 10)) ∧
    (moveInDirection obstaclesBox (3953 / 100) 50 (1 / 2) (1 / 20) 3 (-4) 5).1
      = clampWorld (1 / 2) WORLD_WIDTH (3953 / 100 - -((-4) / 5) * (1 / 20)) := by
  refine ⟨?_, ?_, ?_, ?_⟩
  · have h := integrator_description_amended.1 obstaclesCorner playerCorner 5
    rw [h, if_pos (by norm_num)]
  · have h := integrator_description_amended.2.1 obstaclesTunnel (74 / 100)
      (55 / 100) (1 / 2) (1 / 20) 3 4 5 (by norm_num)
      (by norm_num [collidesWithObstacles, obstacleHit, obstaclesTunnel])
      (by norm_num [collidesWithObstacles, obstacleHit, obstaclesTunnel])
    rw [h]
  · have h := integrator_description_amended.2.2.1 obstaclesCorner 50 50 (16 / 5)
      (1 / 10) 3 4 5 (by norm_num)
      (by norm_num [collidesWithObstacles, obstacleHit, obstaclesCorner])
      (by norm_num [collidesWithObstacles, obstacleHit, obstaclesCorner])
      (by norm_num [collidesWithObstacles, obstacleHit, obstaclesCorner])
    rw [h]
  · have h := integrator_description_amended.2.2.2.1 obstaclesBox (3953 / 100) 50
      (1 / 2) (1 / 20) 3 (-4) 5 (by norm_num)
      (by norm_num [collidesWithObstacles, obstacleHit, obstaclesBox])
      (by norm_num [collidesWithObstacles, obstacleHit, obstaclesBox])
      (by norm_num [collidesWithObstacles, obstacleHit, obstaclesBox])
      (by norm_num [collidesWithObstacles, obstacleHit, obstaclesBox])
      (by norm_num [collidesWithObstacles, obstacleHit, obstaclesBox])
    rw [h]

/-- Counterexample to C8 as stated.  The single claimed algorithm
(`claimedIntegrator`) disagrees with the bot integrator — the bot tests Y
at the pre-move X and walks into the corner the claimed algorithm
avoids — and with the player integrator, which has no perpendicular
fallback and stays wedged where the claimed algorithm slides free. -/
theorem integrator_claimed_algorithm_counterexample :
    IsHypot 3 4 5 ∧
    claimedIntegrator obstaclesTunnel (67 / 100) (561 / 1000) (1 / 2) (1 / 20) 3 4 5
      ≠ moveInDirection obstaclesTunnel (67 / 100) (561 / 1000) (1 / 2) (1 / 20) 3 4 5 ∧
    IsHypot playerCorner.dirX playerCorner.dirY 5 ∧
    collidesWithObstacles obstaclesCorner playerCorner.x playerCorner.y
      playerCorner.radius = false ∧
    claimedIntegrator obstaclesCorner playerCorner.x playerCorner.y
        playerCorner.radius
        (playerSpeedNow playerCorner.baseSpeed playerCorner.speedMultiplier
          playerCorner.speedBoostFrames)
        playerCorner.dirX playerCorner.dirY 5
      ≠ ((playerUpdate obstaclesCorner playerCorner 5).x,
         (playerUpdate obstaclesCorner playerCorner 5).y) := by
  refine ⟨by norm_num [IsHypot], ?_, by norm_num [IsHypot, playerCorner, mkPlayerAt],
    ?_, ?_⟩
  · norm_num [claimedIntegrator, moveInDirection, perpTry, collidesWithObstacles,
      obstacleHit, obstaclesTunnel, clampWorld, WORLD_WIDTH, WORLD_HEIGHT]
  · norm_num [collidesWithObstacles, obstacleHit, obstaclesCorner, playerCorner,
      mkPlayerAt]
  · norm_num [claimedIntegrator, perpTry, playerUpdate_x, playerUpdate_y,
      playerMoveAxes, playerStepX, playerStepY, playerSpeedNow,
      collidesWithObstacles, obstacleHit, obstaclesCorner, playerCorner,
      mkPlayerAt, clampWorld, WORLD_WIDTH, WORLD_HEIGHT]

/-! ## C9 -/

/-- A false reservation scan means no other-indexed bot targets `r`. -/
theorem reservedScan_false_lookup :
    ∀ (bots : List Bot) (k i r : ℕ), reservedScan i r k bots = false →
      ∀ j b, bots.get? j = some b → k + j ≠ i → ¬ b.target = some r := by
  intro bots
  induction bots with
  | nil =>
      intro k i r _ j b hj
      simp at hj
  | cons hd tl ih =>
      intro k i r h j b hj hne
      unfold reservedScan at h
      rw [Bool.or_eq_false_iff] at h
      obtain ⟨h1, h2⟩ := h
      cases j with
      | zero =>
          simp only [List.get?] at hj
          injection hj with hj
          subst hj
          rw [Bool.and_eq_false_iff] at h1
          rcases h1 with h1 | h1
          · exact absurd (by simpa using h1) (by simpa using hne)
          · simpa using h1
      | succ j2 =>
          have := ih (k + 1) i r h2 j2 b (by simpa using hj) (by omega)
          exact this

/-- A non-reserved item handle is targeted by no other live bot. -/
theorem reservedByOther_false_lookup (bots : List Bot) (i r : ℕ)
    (h : reservedByOther bots i r = false) :
    ∀ j b, bots.get? j = some b → j ≠ i → ¬ b.target = some r := by
  intro j b hj hne
  exact reservedScan_false_lookup bots 0 i r h j b hj (by omega)

/-- The nearest-item scan only ever returns unreserved handles. -/
theorem findTargetScan_reserved_false :
    ∀ (items : List Item) (q : Bot) (bots : List Bot) (i : ℕ)
      (acc : Option (ℕ × ℚ)) (r : ℕ),
      findTargetScan q bots i items acc = some r →
      (∀ x d, acc = some (x, d) → reservedByOther bots i x = false) →
      reservedByOther bots i r = false := by
  intro items
  induction items with
  | nil =>
      intro q bots i acc r h hacc
      unfold findTargetScan at h
      cases acc with
      | none => simp at h
      | some p =>
          simp only [Option.map_some'] at h
          injection h with h
          have := hacc p.1 p.2 rfl
          rwa [h] at this
  | cons it rest ih =>
      intro q bots i acc r h hacc
      unfold findTargetScan at h
      by_cases hcond : (roleMatches q.kind it.kind && !reservedByOther bots i it.ref) = true
      · rw [if_pos hcond] at h
        have hfree : reservedByOther bots i it.ref = false := by
          rw [Bool.and_eq_true] at hcond
          simpa using hcond.2
        cases acc with
        | none =>
            refine ih q bots i _ r h ?_
            intro x d hx
            injection hx with hx
            injection hx with hx1 hx2
            rw [← hx1]
            exact hfree
        | some p =>
            rcases p with ⟨pr, pm⟩
            simp only at h
            by_cases hlt : botItemDistSq q it < pm
            · rw [if_pos hlt] at h
              refine ih q bots i _ r h ?_
              intro x d hx
              injection hx with hx
              injection hx with hx1 hx2
              rw [← hx1]
              exact hfree
            · rw [if_neg hlt] at h
              refine ih q bots i _ r h ?_
              intro x d hx
              injection hx with hx
              injection hx with hx1 hx2
              rw [← hx1]
              exact hacc pr pm rfl
      · rw [if_neg hcond] at h
        exact ih q bots i acc r h hacc

/-- `Bot.findTarget` only returns unreserved handles. -/
theorem findTarget_reserved_false (q : Bot) (bots : List Bot) (i : ℕ)
    (items : List Item) (r : ℕ) (h : findTarget q bots i items = some r) :
    reservedByOther bots i r = false := by
  refine findTargetScan_reserved_false items q bots i none r h ?_
  intro x d hx
  simp at hx

/-- Insertion keeps membership. -/
theorem mem_insertDesc (c a : ℕ × ℚ) :
    ∀ l : List (ℕ × ℚ), a ∈ insertDesc c l → a = c ∨ a ∈ l := by
  intro l
  induction l with
  | nil => simp [insertDesc]
  | cons d rest ih =>
      unfold insertDesc
      by_cases hle : d.2 ≤ c.2
      · rw [if_pos hle]
        intro h
        rcases List.mem_cons.mp h with h | h
        · exact Or.inl h
        · exact Or.inr h
      · rw [if_neg hle]
        intro h
        rcases List.mem_cons.mp h with h | h
        · exact Or.inr (List.mem_cons.mpr (Or.inl h))
        · rcases ih h with h | h
          · exact Or.inl h
          · exact Or.inr (List.mem_cons.mpr (Or.inr h))

/-- Sorting keeps membership. -/
theorem mem_sortDesc (a : ℕ × ℚ) :
    ∀ l : List (ℕ × ℚ), a ∈ sortDesc l → a ∈ l := by
  intro l
  induction l with
  | nil => simp [sortDesc]
  | cons c rest ih =>
      unfold sortDesc
      intro h
      rcases mem_insertDesc c a (sortDesc rest) h with h | h
      · exact List.mem_cons.mpr (Or.inl h)
      · exact List.mem_cons.mpr (Or.inr (ih h))

/-- Farthest-target candidates are unreserved. -/
theorem farCandidates_reserved_false (q : Bot) (bots : List Bot) (i : ℕ)
    (items : List Item) (x : ℕ) (d : ℚ)
    (h : (x, d) ∈ farCandidates q bots i items) :
    reservedByOther bots i x = false := by
  unfold farCandidates at h
  rw [List.mem_filterMap] at h
  obtain ⟨it, _, hf⟩ := h
  by_cases hcond : (roleMatches q.kind it.kind && !reservedByOther bots i it.ref) = true
  · rw [if_pos hcond] at hf
    injection hf with hf
    injection hf with hf1 hf2
    rw [← hf1]
    rw [Bool.and_eq_true] at hcond
    simpa using hcond.2
  · rw [if_neg hcond] at hf
    exact absurd hf (by simp)

/-- `Bot.findFarthestTarget` only returns unreserved handles. -/
theorem findFarthestTarget_reserved_false (q : Bot) (bots : List Bot) (i : ℕ)
    (items : List Item) (rank r : ℕ)
    (h : findFarthestTarget q bots i items rank = some r) :
    reservedByOther bots i r = false := by
  unfold findFarthestTarget at h
  by_cases hemp : (farCandidates q bots i items).isEmpty
  · rw [if_pos hemp] at h
    simp at h
  · rw [if_neg hemp] at h
    rw [Option.map_eq_some'] at h
    obtain ⟨p, hp, hp1⟩ := h
    have hmem : p ∈ sortDesc (farCandidates q bots i items) := List.get?_mem hp
    have hmem2 : p ∈ farCandidates q bots i items := mem_sortDesc p _ hmem
    rw [← hp1]
    exact farCandidates_reserved_false q bots i items p.1 p.2 hmem2

/-- Lookup in `l.set`. -/
theorem get?_set_cases (l : List Bot) (i : ℕ) (b : Bot) (j : ℕ) (x : Bot)
    (h : (l.set i b).get? j = some x) :
    (j = i ∧ x = b) ∨ (j ≠ i ∧ l.get? j = some x) := by
  by_cases hji : j = i
  · subst hji
    rw [List.get?_set_eq] at h
    cases hl : l.get? j with
    | none =>
        rw [hl] at h
        simp at h
    | some w =>
        rw [hl] at h
        simp at h
        exact Or.inl ⟨rfl, h.symm⟩
  · rw [List.get?_set_ne _ _ (fun hh => hji hh.symm)] at h
    exact Or.inr ⟨hji, h⟩

/-- Lookup in `l ++ [b]`. -/
theorem get?_append_singleton_cases (l : List Bot) (b : Bot) (j : ℕ) (x : Bot)
    (h : (l ++ [b]).get? j = some x) :
    l.get? j = some x ∨ x = b := by
  by_cases hj : j < l.length
  · rw [List.get?_append hj] at h
    exact Or.inl h
  · rw [List.get?_append_right (by omega)] at h
    rcases hc : j - l.length with _ | k
    · rw [hc] at h
      simp only [List.get?] at h
      injection h with h
      exact Or.inr h.symm
    · rw [hc] at h
      simp only [List.get?] at h
      exact absurd h (by simp)

/-- Every registry step preserves the (role-free) no-shared-target
invariant. -/
theorem registryStep_preserves_noShared {s s2 : List Bot}
    (hinv : NoSharedTarget s) (hstep : RegistryStep s s2) : NoSharedTarget s2 := by
  cases hstep with
  | update i b2 v hv hb2 =>
      intro a c ba bc r ha hc hac har hcr
      rcases get?_set_cases s i b2 a ba ha with ⟨hai, hab⟩ | ⟨hai, ha2⟩ <;>
        rcases get?_set_cases s i b2 c bc hc with ⟨hci, hcb⟩ | ⟨hci, hc2⟩
      · exact hac (hai.trans hci.symm)
      · -- a is the updated bot, c is untouched
        subst hab
        rw [hb2] at har
        cases hv with
        | clear => simp at har
        | keep b hb =>
            exact hinv i c b bc r hb hc2 (fun hh => hci hh.symm) har hcr
        | acquire q items =>
            exact reservedByOther_false_lookup s i r
              (findTarget_reserved_false q s i items r har) c bc hc2
              (by omega) hcr
        | reroute q items rank =>
            exact reservedByOther_false_lookup s i r
              (findFarthestTarget_reserved_false q s i items rank r har) c bc
              hc2 (by omega) hcr
      · -- c is the updated bot, a is untouched
        subst hcb
        rw [hb2] at hcr
        cases hv with
        | clear => simp at hcr
        | keep b hb =>
            exact hinv i a b ba r hb ha2 (fun hh => hai hh.symm) hcr har
        | acquire q items =>
            exact reservedByOther_false_lookup s i r
              (findTarget_reserved_false q s i items r hcr) a ba ha2
              (by omega) har
        | reroute q items rank =>
            exact reservedByOther_false_lookup s i r
              (findFarthestTarget_reserved_false q s i items rank r hcr) a ba
              ha2 (by omega) har
      · exact hinv a c ba bc r ha2 hc2 hac har hcr
  | spawn b hb =>
      intro a c ba bc r ha hc hac har hcr
      rcases get?_append_singleton_cases s b a ba ha with ha2 | ha2 <;>
        rcases get?_append_singleton_cases s b c bc hc with hc2 | hc2
      · exact hinv a c ba bc r ha2 hc2 hac har hcr
      · subst hc2
        rw [hb] at hcr
        exact absurd hcr (by simp)
      · subst ha2
        rw [hb] at har
        exact absurd har (by simp)
      · subst ha2
        rw [hb] at har
        exact absurd har (by simp)

/-- C9.  In every reachable registry state, no two distinct live collector
bots of the same role hold the same non-null target reference: every
target a bot stores comes from `findTarget` or `findFarthestTarget`, both
of which skip any item already referenced as another live bot's target,
or is `null`. -/
theorem reachable_registry_no_shared_same_role_target (bots : List Bot)
    (h : ReachableRegistry bots) : NoSharedSameRoleTarget bots := by
  have key : ∀ s, ReachableRegistry s → NoSharedTarget s := by
    intro s hs
    induction hs with
    | init =>
        intro i j bi bj r hi
        simp at hi
    | step s s2 _ hstep ih => exact registryStep_preserves_noShared ih hstep
  intro i j bi bj r hi hj hij _ hbi hbj
  exact key bots h i j bi bj r hi hj hij hbi hbj

/-- Witness for C9: a registry holding one point bot and one ammo bot,
reached by two purchases from the empty start. -/
theorem reachable_registry_no_shared_same_role_target_witness :
    NoSharedSameRoleTarget [freshPointBot, freshAmmoBot] :=
  reachable_registry_no_shared_same_role_target [freshPointBot, freshAmmoBot]
    (ReachableRegistry.step [freshPointBot] [freshPointBot, freshAmmoBot]
      (ReachableRegistry.step [] [freshPointBot] ReachableRegistry.init
        (RegistryStep.spawn [] freshPointBot rfl))
      (RegistryStep.spawn [freshPointBot] freshAmmoBot rfl))

/-! ## C10 -/

/-- C10.  When the player's circle overlaps the live health boost, the
collection tick sets health to `min(maxHealth, health + 15)` — never above
`maxHealth` — empties the boost slot, and records the respawn frame
`frameCount + HEALTH_BOOST_RESPAWN_FRAMES`; and on any later tick before
that recorded frame with the slot empty, no new boost spawns (the slot
stays empty with the same respawn frame), whatever `spawnHealthBoost`
would have produced. -/
theorem health_boost_collection_effects (frameCount nextHealthBoostFrame : ℕ)
    (hb : HBoost) (spawnResult : Option HBoost) (p : Player)
    (hover : (p.x - hb.x) * (p.x - hb.x) + (p.y - hb.y) * (p.y - hb.y)
      < (p.radius + hb.radius) * (p.radius + hb.radius)) :
    healthBoostTick frameCount (some hb) nextHealthBoostFrame spawnResult p
      = (none, frameCount + HEALTH_BOOST_RESPAWN_FRAMES,
         { p with health := min p.maxHealth (p.health + HEALTH_BOOST_AMOUNT) }) ∧
    (healthBoostTick frameCount (some hb) nextHealthBoostFrame
        spawnResult p).2.2.health ≤ p.maxHealth ∧
    (∀ (g next2 : ℕ) (sr2 : Option HBoost) (q : Player), g < next2 →
      healthBoostTick g none next2 sr2 q = (none, next2, q)) := by
  have hcoll : healthBoostTick frameCount (some hb) nextHealthBoostFrame
      spawnResult p
      = (none, frameCount + HEALTH_BOOST_RESPAWN_FRAMES,
         { p with health := min p.maxHealth (p.health + HEALTH_BOOST_AMOUNT) }) := by
    unfold healthBoostTick
    simp only [Option.isNone_some, Bool.false_and, Bool.false_eq_true, if_false]
    rw [if_pos hover]
  refine ⟨hcoll, ?_, ?_⟩
  · rw [hcoll]
    exact min_le_left _ _
  · intro g next2 sr2 q hg
    unfold healthBoostTick
    have hspawn : decide (next2 ≤ g) = false := by
      simp
      omega
    simp [hspawn]

/-- Witness for C10: the player at `(50, 50)` collects the boost at
`(51, 51)` on frame 100; a tick on frame 150 with the slot empty and the
respawn frame 400 spawns nothing. -/
theorem health_boost_collection_effects_witness :
    ((mkPlayerAt 50 50).x - boostSample.x) * ((mkPlayerAt 50 50).x - boostSample.x)
      + ((mkPlayerAt 50 50).y - boostSample.y) * ((mkPlayerAt 50 50).y - boostSample.y)
      < ((mkPlayerAt 50 50).radius + boostSample.radius)
        * ((mkPlayerAt 50 50).radius + boostSample.radius) ∧
    healthBoostTick 100 (some boostSample) 0 none (mkPlayerAt 50 50)
      = (none, 100 + HEALTH_BOOST_RESPAWN_FRAMES,
         { mkPlayerAt 50 50 with
            health := min (mkPlayerAt 50 50).maxHealth
              ((mkPlayerAt 50 50).health + HEALTH_BOOST_AMOUNT) }) ∧
    healthBoostTick 150 none 400 none (mkPlayerAt 50 50)
      = (none, 400, mkPlayerAt 50 50) := by
  have hover : ((mkPlayerAt 50 50).x - boostSample.x)
      * ((mkPlayerAt 50 50).x - boostSample.x)
      + ((mkPlayerAt 50 50).y - boostSample.y)
        * ((mkPlayerAt 50 50).y - boostSample.y)
      < ((mkPlayerAt 50 50).radius + boostSample.radius)
        * ((mkPlayerAt 50 50).radius + boostSample.radius) := by
    norm_num [mkPlayerAt, boostSample]
  have h := health_boost_collection_effects 100 0 boostSample none
    (mkPlayerAt 50 50) hover
  exact ⟨hover, h.1, h.2.2 150 400 none (mkPlayerAt 50 50) (by norm_num)⟩
